import Mathlib

/-!
Verification of the PharmaGuard pharmacogenomic report client.

This file gives a shallow embedding, in Lean, of the derived-computation and
state-orchestration core of the client: the risk classifier and dose
calculator of the drug-risk row component, the result aggregator and the
gene-panel reconstructor of the results page, the upload pipeline
orchestrator, and the fetch-by-patient handler.  JavaScript idioms are made
explicit: absent or null fields become Option, the boolean coercion of
strings (only the empty string is falsy) and of arrays (every array is
truthy) is modelled where the code relies on it, and IEEE numbers are
idealised as exact rationals (every numeral appearing in the verified facts
is exactly representable as a binary double, so the idealisation is faithful
on them).  Rational arithmetic is written with mkRat over numerators and
denominators so that every definition evaluates inside the kernel; bridge
lemmas relate these operations to the standard ones.
-/

namespace PharmaGuard

/-! ### JavaScript-idiom helpers -/

/-- The JS expression `o || d` for a possibly absent string `o`: the empty
string is falsy, so it also falls through to the default. -/
def jsOr (o : Option String) (d : String) : String :=
  match o with
  | some s => if s = "" then d else s
  | none => d

/-- The JS expression `a || b` at Option level (absent falls through). -/
def optOr (a b : Option α) : Option α :=
  match a with
  | some x => some x
  | none => b

/-- JS `String.prototype.toLowerCase` on the ASCII range (risk labels are
ASCII): uppercase letters are shifted by 32, all else kept. -/
def lowerChar (c : Char) : Char :=
  if 65 ≤ c.toNat ∧ c.toNat ≤ 90 then Char.ofNat (c.toNat + 32) else c

/-- Lowercase a string character by character. -/
def jsToLower (s : String) : String := ⟨s.data.map lowerChar⟩

/-- Whether `pat` occurs as a contiguous run inside `l`
(JS `String.prototype.includes`). -/
def hasSubstrL (pat : List Char) : List Char → Bool
  | [] => pat.isEmpty
  | c :: rest => pat.isPrefixOf (c :: rest) || hasSubstrL pat rest

/-- JS `s.includes(pat)`. -/
def strIncludes (s pat : String) : Bool := hasSubstrL pat.data s.data

/-- A JS whitespace character (the ones relevant to typed input). -/
def isJsWs (c : Char) : Bool := c = ' ' || c = '\t' || c = '\n' || c = '\r'

/-- JS `String.prototype.trim`. -/
def jsTrim (s : String) : String :=
  ⟨((s.data.dropWhile isJsWs).reverse.dropWhile isJsWs).reverse⟩

/-! ### Exact-rational counterparts of the JS number operations -/

/-- Longest leading run of decimal digits of a character list, with the
rest. -/
def digitSpan : List Char → List Char × List Char
  | c :: rest =>
    if c.isDigit then
      let p := digitSpan rest
      (c :: p.1, p.2)
    else ([], c :: rest)
  | [] => ([], [])

/-- Value of a list of decimal digits. -/
def digitsToNat (ds : List Char) : Nat :=
  ds.foldl (fun a c => a * 10 + (c.toNat - 48)) 0

/-- JS `parseFloat`, restricted to plain decimal notation (optional sign,
integer digits, optional fraction); exponent notation and `Infinity` are not
modelled, and inputs come from a numeric form field.  The longest valid
prefix is parsed; `none` stands for `NaN`. -/
def parseFloatQ (s : String) : Option ℚ :=
  let p0 : Int × List Char :=
    match s.data with
    | '-' :: r => (-1, r)
    | '+' :: r => (1, r)
    | l => (1, l)
  let ip := digitSpan p0.2
  let fp : List Char :=
    match ip.2 with
    | '.' :: r => (digitSpan r).1
    | _ => []
  if ip.1 = [] ∧ fp = [] then none
  else some (mkRat (p0.1 * (digitsToNat ip.1 * 10 ^ fp.length + digitsToNat fp)) (10 ^ fp.length))

/-- Product of two rationals, written through mkRat so that it evaluates by
kernel reduction (the Mul instance of ℚ is irreducible). -/
def qMul (a b : ℚ) : ℚ := mkRat (a.num * b.num) (a.den * b.den)

/-- Round half up, the rounding JS `toFixed` applies to an exactly
representable value: the floor of `q + 1/2`, computed on the numerator and
denominator. -/
def roundQ (q : ℚ) : ℤ := Int.fdiv (2 * q.num + q.den) (2 * q.den)

/-- JS `x.toFixed(1)` as a value: the rational with one decimal digit
nearest to `x` (ties up). -/
def toFixed1 (q : ℚ) : ℚ := mkRat (roundQ (qMul q 10)) 10

/-- `qMul` agrees with rational multiplication. -/
theorem qMul_eq (a b : ℚ) : qMul a b = a * b := by
  rw [qMul, Rat.mul_def, Rat.normalize_eq_mkRat]

/-- `roundQ` agrees with rounding to the nearest integer, ties up. -/
theorem roundQ_eq (q : ℚ) : roundQ q = round q := by
  have hd : ((q.den : ℚ)) ≠ 0 := by exact_mod_cast q.den_nz
  have key : q + 1 / 2 = ((2 * q.num + (q.den : ℤ) : ℤ) : ℚ) / (((2 * q.den : ℕ) : ℕ) : ℚ) := by
    conv_lhs => rw [← Rat.num_div_den q]
    push_cast
    field_simp
    ring
  rw [round_eq, roundQ, key, Rat.floor_intCast_div_natCast,
    Int.fdiv_eq_ediv _ (by positivity)]
  push_cast
  ring_nf

/-! ### Risk Classifier

From `riskMeta` in `frontend/src/components/DrugRiskRow.jsx`:

    function riskMeta(label) {
        const l = (label || "").toLowerCase();
        if (l === "toxic") return { accent: ..., bg: ..., icon: ..., border: ... };
        if (l === "ineffective") return ...;
        if (l.includes("adjust")) return ...;
        if (l === "safe") return ...;
        return ...;
    }
-/

/-- Visual metadata attached to a risk label by `riskMeta`. -/
structure RiskMeta where
  accent : String
  bg : String
  icon : String
  border : String
deriving DecidableEq, Repr

/-- Embedding of `riskMeta` from `DrugRiskRow.jsx`; `none` models a null or
absent `risk_label`. -/
def riskMeta (label : Option String) : RiskMeta :=
  let l := jsToLower (jsOr label "")
  if l = "toxic" then ⟨"#DC2626", "#FEF2F2", "🔴", "#FECACA"⟩
  else if l = "ineffective" then ⟨"#D97706", "#FFFBEB", "🟠", "#FDE68A"⟩
  else if strIncludes l "adjust" then ⟨"#2563EB", "#EFF6FF", "🟡", "#BFDBFE"⟩
  else if l = "safe" then ⟨"#16A34A", "#F0FDF4", "🟢", "#BBF7D0"⟩
  else ⟨"#9CA3AF", "#F8FAFC", "⚪", "#E2E8F0"⟩

/-- The semantic risk category determined by the shared classification
branch structure (the same ordered rules appear in `riskMeta`, in the dose
modifier of `DrugRiskRow`, and in the counts reduce of `Results`). -/
inductive RiskCategory where
  | criticalToxic
  | criticalIneffective
  | adjust
  | safe
  | unknown
deriving DecidableEq, Repr

/-- The classifier as a category-valued function: lowercase the label (null
and absent become the empty string) and apply the ordered rules, first match
wins. -/
def classifyCategory (label : Option String) : RiskCategory :=
  let l := jsToLower (jsOr label "")
  if l = "toxic" then .criticalToxic
  else if l = "ineffective" then .criticalIneffective
  else if strIncludes l "adjust" then .adjust
  else if l = "safe" then .safe
  else .unknown

/-- The fixed visual metadata of each category. -/
def metaOfCategory : RiskCategory → RiskMeta
  | .criticalToxic => ⟨"#DC2626", "#FEF2F2", "🔴", "#FECACA"⟩
  | .criticalIneffective => ⟨"#D97706", "#FFFBEB", "🟠", "#FDE68A"⟩
  | .adjust => ⟨"#2563EB", "#EFF6FF", "🟡", "#BFDBFE"⟩
  | .safe => ⟨"#16A34A", "#F0FDF4", "🟢", "#BBF7D0"⟩
  | .unknown => ⟨"#9CA3AF", "#F8FAFC", "⚪", "#E2E8F0"⟩

/-! ### Dose Adjustment Calculator

From the dose-calculation logic of `DrugRiskRow` (the variant with the
Interactive Dose Calculator):

    let doseModifier = 1.0;
    const riskLower = (risk.risk_label || "").toLowerCase();
    if (riskLower === "toxic" || riskLower === "ineffective") doseModifier = 0.0;
    else if (riskLower.includes("adjust")) doseModifier = 0.5;

    const calculatedDose = standardDose
      ? (parseFloat(standardDose) * doseModifier).toFixed(1) : null;

and the rendering `calculatedDose ? calculatedDose + " mg" : "—"`.
-/

/-- The dose modifier computed by `DrugRiskRow`.  Note the default: every
label that is neither toxic, ineffective nor an adjust-variant — Safe and
Unknown alike — keeps the initial modifier `1.0`. -/
def doseModifier (risk_label : Option String) : ℚ :=
  let riskLower := jsToLower (jsOr risk_label "")
  if riskLower = "toxic" ∨ riskLower = "ineffective" then 0
  else if strIncludes riskLower "adjust" then mkRat 1 2
  else 1

/-- What the Adjusted Dose cell renders: the em-dash placeholder (when
`calculatedDose` is null or the empty string), the literal NaN text, or a
numeric value with one decimal. -/
inductive DoseDisplay where
  | placeholder
  | nanText
  | value (q : ℚ)
deriving DecidableEq, Repr

/-- The Adjusted Dose cell as a function of the dose input string and the
risk label.  An empty input string is falsy, so `calculatedDose` is null and
the placeholder is rendered.  A non-empty input is parsed with `parseFloat`:
if parsing fails the JS value is `NaN` and `NaN.toFixed(1)` is the non-empty
(hence truthy) string `"NaN"`, rendered as `NaN mg`; otherwise the product
with the modifier is rendered to one decimal — including `0.0`, since the
string `"0.0"` is non-empty and truthy. -/
def calculatedDose (standardDose : String) (risk_label : Option String) : DoseDisplay :=
  if standardDose = "" then .placeholder
  else
    match parseFloatQ standardDose with
    | none => .nanText
    | some q => .value (toFixed1 (qMul q (doseModifier risk_label)))

example : calculatedDose "100" (some "Adjust Dose") = .value 50 := by decide
example : calculatedDose "100" (some "Toxic") = .value 0 := by decide
example : calculatedDose "100" (some "Unknown") = .value 100 := by decide
example : calculatedDose "100" none = .value 100 := by decide
example : calculatedDose "" (some "Safe") = .placeholder := by decide
example : calculatedDose "abc" (some "Safe") = .nanText := by decide
example : calculatedDose "100" (some "Safe") = .value 100 := by decide
example : riskMeta (some "TOXIC") = riskMeta (some "toxic") := by decide
example : classifyCategory (some "please adjust dose") = .adjust := by decide

/-! ### Result Record Model

The shape of an analyzed-drug outcome, with every field the client reads;
`Option` marks fields the server may omit (JS `undefined`/`null`). -/

/-- One detected variant of a pharmacogenomic profile. -/
structure Variant where
  rsid : Option String := none
  position : Option Nat := none
  ref : Option String := none
  alt : Option String := none
  genotype : Option String := none
  star_allele : Option String := none
  filter : Option String := none
deriving DecidableEq, Repr

/-- The `pharmacogenomic_profile` sub-record. -/
structure PharmacogenomicProfile where
  primary_gene : Option String := none
  diplotype : Option String := none
  phenotype : Option String := none
  genetic_phenotype : Option String := none
  active_inhibitor : Option String := none
  detected_variants : Option (List Variant) := none
deriving DecidableEq, Repr

/-- The `risk_assessment` sub-record (only the fields the verified logic
reads). -/
structure RiskAssessment where
  risk_label : Option String := none
  severity : Option String := none
  phenoconversion_occurred : Bool := false
deriving DecidableEq, Repr

/-- One analyzed-drug outcome as the client consumes it. -/
structure AnalysisResult where
  drug : Option String := none
  pharmacogenomic_profile : Option PharmacogenomicProfile := none
  risk_assessment : Option RiskAssessment := none
deriving DecidableEq, Repr

/-- The risk label the aggregator and the drug-risk row read:
`r.risk_assessment?.risk_label`. -/
def resultLabel (r : AnalysisResult) : Option String :=
  r.risk_assessment.bind RiskAssessment.risk_label

/-! ### Result Aggregator

From the counts reduce of the results page:

    const counts = results.reduce((acc, r) => {
        const l = (r.risk_assessment?.risk_label || "").toLowerCase();
        if (l === "toxic" || l === "ineffective") acc.critical++;
        else if (l.includes("adjust")) acc.warn++;
        else if (l === "safe") acc.safe++;
        return acc;
    }, { critical: 0, warn: 0, safe: 0 });
-/

/-- The summary badge counts. -/
structure Counts where
  critical : Nat
  warn : Nat
  safe : Nat
deriving DecidableEq, Repr

/-- One step of the counts reduce. -/
def countsStep (acc : Counts) (r : AnalysisResult) : Counts :=
  let l := jsToLower (jsOr (resultLabel r) "")
  if l = "toxic" ∨ l = "ineffective" then { acc with critical := acc.critical + 1 }
  else if strIncludes l "adjust" then { acc with warn := acc.warn + 1 }
  else if l = "safe" then { acc with safe := acc.safe + 1 }
  else acc

/-- The aggregator: fold the reduce over the result list. -/
def counts (results : List AnalysisResult) : Counts :=
  results.foldl countsStep ⟨0, 0, 0⟩

/-- Decidable test: is the classified category one of the two critical
ones. -/
def isCriticalCat (c : RiskCategory) : Bool :=
  c = .criticalToxic || c = .criticalIneffective

/-! ### Gene Panel Reconstructor

From `_buildGenePanelFallback` of the results page:

    function _buildGenePanelFallback(res) {
        const arr = Array.isArray(res) ? res : [res];
        const seen = {};
        for (const r of arr) {
            const pgx = r?.pharmacogenomic_profile || {};
            const gene = pgx.primary_gene;
            if (!gene || seen[gene]) continue;
            seen[gene] = { gene, diplotype: pgx.diplotype || "Unknown", ... };
        }
        return Object.values(seen);
    }

The object `seen` is modelled as an association list in insertion order,
which is the enumeration order of `Object.values` for the non-integer-like
string keys gene symbols are. -/

/-- One reconstructed gene panel entry. -/
structure GenePanelEntry where
  gene : String
  diplotype : String
  phenotype : String
  genetic_phenotype : String
  active_inhibitor : Option String
  variant_count : Nat
  summary : String
  variants : List Variant
deriving DecidableEq, Repr

/-- The `results` field of a fetch or analyze response, which the server may
send as a single object or as an array. -/
inductive ResultsField where
  | one (r : AnalysisResult)
  | many (rs : List AnalysisResult)
deriving DecidableEq, Repr

/-- `Array.isArray(res) ? res : [res]`. -/
def normalizeResults : ResultsField → List AnalysisResult
  | .one r => [r]
  | .many rs => rs

/-- `r?.pharmacogenomic_profile || {}` (an object is always truthy, so the
default only replaces an absent field). -/
def pgxOf (r : AnalysisResult) : PharmacogenomicProfile :=
  r.pharmacogenomic_profile.getD {}

/-- The deduplication key: `pgx.primary_gene`, with both an absent gene and
the falsy empty string causing the `!gene` skip. -/
def geneKey (r : AnalysisResult) : Option String :=
  match (pgxOf r).primary_gene with
  | some g => if g = "" then none else some g
  | none => none

/-- The panel entry built from the profile of the first result seen for a
gene (the object literal stored into `seen[gene]`). -/
def mkPanelEntry (g : String) (pgx : PharmacogenomicProfile) : GenePanelEntry where
  gene := g
  diplotype := jsOr pgx.diplotype "Unknown"
  phenotype := jsOr pgx.phenotype "Unknown"
  genetic_phenotype := jsOr pgx.genetic_phenotype (jsOr pgx.phenotype "Unknown")
  active_inhibitor := pgx.active_inhibitor
  variant_count := (pgx.detected_variants.getD []).length
  summary := g ++ " metabolizer status based on detected variants"
  variants := pgx.detected_variants.getD []

/-- The `for (const r of arr)` loop over the running `seen` map. -/
def buildLoop : List AnalysisResult → List (String × GenePanelEntry) → List (String × GenePanelEntry)
  | [], seen => seen
  | r :: rest, seen =>
    match geneKey r with
    | none => buildLoop rest seen
    | some g =>
      if (seen.lookup g).isSome then buildLoop rest seen
      else buildLoop rest (seen ++ [(g, mkPanelEntry g (pgxOf r))])

/-- `_buildGenePanelFallback`: run the loop on the normalized result list
and return the values of `seen` in insertion order. -/
def _buildGenePanelFallback (res : ResultsField) : List GenePanelEntry :=
  (buildLoop (normalizeResults res) []).map Prod.snd

/-- Specification-side first-occurrence deduplication: keep each string the
first time it appears. -/
def dedupFirst : List String → List String
  | [] => []
  | a :: l => a :: (dedupFirst l).filter (fun b => b ≠ a)

/-! ### API Client Adapter error messages

From `analyzeVCF` and `getResultsByPatient` in `api.js`:

    if (!res.ok || !json.success) throw new Error(json.error || json.detail?.error || "Analysis failed");
    if (!res.ok || !json.success) throw new Error(json.error || json.detail?.error || "Failed to fetch results");
-/

/-- The message of the Error thrown by `analyzeVCF` on a non-success
payload: `json.error || json.detail?.error || "Analysis failed"`. -/
def analyzeErrMsg (error detailError : Option String) : String :=
  jsOr error (jsOr detailError "Analysis failed")

/-- The message of the Error thrown by `getResultsByPatient` on a
non-success payload. -/
def fetchErrMsg (error detailError : Option String) : String :=
  jsOr error (jsOr detailError "Failed to fetch results")

/-! ### Pipeline Orchestrator

From `handleSubmit` of the Upload page, together with `handleResults` of
`App` and the React rule that a state setter of an unmounted component does
not change anything visible.  The asynchronous interleaving of the interval
callback, the navigation clicks and the settlement of the `analyzeVCF`
promise is modelled as a stream of events applied to an explicit state; the
single-threaded event loop runs each handler atomically.

    const handleSubmit = async () => {
        if (!file) return showToast("Please select a VCF file.");
        if (selectedDrugs.length === 0) return showToast("Select at least one drug to analyze.");
        setLoading(true);
        setPipelineStep(1);
        let step = 1;
        const ticker = setInterval(() => {
            step = Math.min(step + 1, 6);
            setPipelineStep(step);
        }, 700);
        try {
            const data = await analyzeVCF({ ... });
            clearInterval(ticker);
            setPipelineStep(7);
            await new Promise(r => setTimeout(r, 600));
            const results = Array.isArray(data.results) ? data.results : [data.results];
            onResults(results, { patient_code: ..., patient_id: ..., total_variants_found: ... },
                      data.gene_panel || []);
        } catch (err) {
            clearInterval(ticker);
            showToast(err.message || "Analysis failed. Check console.");
            setLoading(false);
            setPipelineStep(0);
        }
    };

The Upload component installs no unmount cleanup (it has no effect hook at
all), so navigating away clears neither the interval nor the pending
promise continuation. -/

/-- The three views of `App`. -/
inductive View where
  | home
  | upload
  | results
deriving DecidableEq, Repr

/-- The upload metadata handed to the results view. -/
structure UploadMeta where
  patient_code : Option String
  patient_id : Option String
  total_variants_found : Option Nat
deriving DecidableEq, Repr

/-- The `data` object of a successful analyze or fetch response. -/
structure AnalyzeResponseData where
  results : ResultsField
  patient_code : Option String := none
  patient_id : Option String := none
  total_variants_parsed : Option Nat := none
  gene_panel : Option (List GenePanelEntry) := none
deriving DecidableEq, Repr

/-- The whole observable state the orchestration touches: the App view, the
Upload form and pipeline state, the ticker closure, and the result data held
by App. -/
structure OrchState where
  view : View
  uploadMounted : Bool
  file : Option String
  patientCode : String
  selectedDrugs : List String
  selectedMeds : List String
  loading : Bool
  pipelineStep : Nat
  tickerStep : Nat
  tickerActive : Bool
  toast : Option String
  appResults : List AnalysisResult
  appGenePanel : List GenePanelEntry
  appUploadData : Option UploadMeta
deriving DecidableEq, Repr

/-- The request `analyzeVCF` posts (its form fields). -/
structure AnalyzeRequest where
  file : String
  patient_code : String
  drugs : String
  concurrent_medications : String
deriving DecidableEq, Repr

/-- Outcome of the two submission guards: either a blocking toast naming
the missing precondition, or the single combined upload-and-analyze
request. -/
inductive SubmitAction where
  | blocked (msg : String)
  | submitted (req : AnalyzeRequest)
deriving DecidableEq, Repr

/-- The guard section of `handleSubmit` plus the form `analyzeVCF` builds:
no file blocks with the file message, an empty drug selection blocks with
the drug message, otherwise the one request is issued. -/
def handleSubmitAction (file : Option String) (selectedDrugs : List String)
    (patientCode : String) (selectedMeds : List String) : SubmitAction :=
  match file with
  | none => .blocked "Please select a VCF file."
  | some f =>
    if selectedDrugs.length = 0 then .blocked "Select at least one drug to analyze."
    else .submitted
      { file := f
        patient_code := jsOr (some patientCode) "PATIENT_001"
        drugs := String.intercalate "," selectedDrugs
        concurrent_medications := String.intercalate "," selectedMeds }

/-- The scheduler events: a submit click, one firing of the interval
callback, a navigation away from the upload view, and the settlement of the
analyze promise (fulfilled, rejected by a non-success payload, or rejected
by a transport error). -/
inductive OrchEvent where
  | submit
  | tick
  | navigateAway (v : View)
  | respondSuccess (data : AnalyzeResponseData)
  | respondFailure (error detailError : Option String)
  | respondTransport (msg : String)
deriving DecidableEq, Repr

/-- One event of the orchestration.  State setters of the Upload component
(`setPipelineStep`, `setLoading`, `setToast`) are gated on `uploadMounted`;
the closure variable `step` and the interval itself live outside React and
are not.  `onResults` mutates App state, and App stays mounted
throughout. -/
def orchStep (s : OrchState) : OrchEvent → OrchState
  | .submit =>
    match handleSubmitAction s.file s.selectedDrugs s.patientCode s.selectedMeds with
    | .blocked msg => { s with toast := some msg }
    | .submitted _ =>
      { s with loading := true, pipelineStep := 1, tickerStep := 1, tickerActive := true }
  | .tick =>
    if s.tickerActive then
      let st := min (s.tickerStep + 1) 6
      { s with tickerStep := st
               pipelineStep := if s.uploadMounted then st else s.pipelineStep }
    else s
  | .navigateAway v =>
    { s with view := v, uploadMounted := false }
  | .respondSuccess data =>
    { s with tickerActive := false
             pipelineStep := if s.uploadMounted then 7 else s.pipelineStep
             appResults := normalizeResults data.results
             appUploadData := some
               { patient_code := data.patient_code
                 patient_id := data.patient_id
                 total_variants_found := data.total_variants_parsed }
             appGenePanel := data.gene_panel.getD []
             view := .results
             uploadMounted := false }
  | .respondFailure error detailError =>
    let m := analyzeErrMsg error detailError
    { s with tickerActive := false
             toast := if s.uploadMounted then some (if m = "" then "Analysis failed. Check console." else m) else s.toast
             loading := if s.uploadMounted then false else s.loading
             pipelineStep := if s.uploadMounted then 0 else s.pipelineStep }
  | .respondTransport msg =>
    { s with tickerActive := false
             toast := if s.uploadMounted then some (if msg = "" then "Analysis failed. Check console." else msg) else s.toast
             loading := if s.uploadMounted then false else s.loading
             pipelineStep := if s.uploadMounted then 0 else s.pipelineStep }

/-- Run a list of events. -/
def orchRun (s : OrchState) (evs : List OrchEvent) : OrchState :=
  evs.foldl orchStep s

/-! ### Fetch-by-patient handler of the Results page

    const handleFetchByPatient = async () => {
        if (!fetchPatientId.trim()) return;
        setFetching(true);
        setFetchError(null);
        try {
            const data = await getResultsByPatient(fetchPatientId.trim());
            setResults(Array.isArray(data.results) ? data.results : [data.results]);
            setGenePanel(data.gene_panel || _buildGenePanelFallback(data.results));
            setActiveUploadData({ patient_code: ..., patient_id: ..., total_variants_found: ... });
        } catch (err) {
            setFetchError(err.message || "Failed to fetch results.");
        } finally {
            setFetching(false);
        }
    };
-/

/-- The state of the Results page the fetch handler touches. -/
structure ResultsViewState where
  results : List AnalysisResult
  genePanel : List GenePanelEntry
  activeUploadData : Option UploadMeta
  fetchPatientId : String
  fetching : Bool
  fetchError : Option String
deriving DecidableEq, Repr

/-- How `getResultsByPatient` settles: with data, rejected by a non-success
payload, or rejected by a transport error. -/
inductive FetchOutcome where
  | success (data : AnalyzeResponseData)
  | failure (error detailError : Option String)
  | transport (msg : String)
deriving DecidableEq, Repr

/-- The gene panel the success path stores:
`data.gene_panel || _buildGenePanelFallback(data.results)`.  Any present
array — an empty one included — is truthy and used as is; only an absent or
null field falls back to the local reconstruction. -/
def genePanelForFetch (gene_panel : Option (List GenePanelEntry)) (results : ResultsField) :
    List GenePanelEntry :=
  match gene_panel with
  | some gp => gp
  | none => _buildGenePanelFallback results

/-- `handleFetchByPatient` as a function of the pre-state and how the
request settles.  A blank (whitespace-only) patient id returns before any
state change. -/
def handleFetchByPatient (s : ResultsViewState) (outcome : FetchOutcome) : ResultsViewState :=
  if jsTrim s.fetchPatientId = "" then s
  else
    let s1 := { s with fetching := true, fetchError := none }
    match outcome with
    | .success data =>
      { s1 with
        results := normalizeResults data.results
        genePanel := genePanelForFetch data.gene_panel data.results
        activeUploadData := some
          { patient_code := data.patient_code
            patient_id := data.patient_id
            total_variants_found := data.total_variants_parsed }
        fetching := false }
    | .failure error detailError =>
      let m := fetchErrMsg error detailError
      { s1 with
        fetchError := some (if m = "" then "Failed to fetch results." else m)
        fetching := false }
    | .transport msg =>
      { s1 with
        fetchError := some (if msg = "" then "Failed to fetch results." else msg)
        fetching := false }

/-! ## Helper lemmas -/

/-- `label || ""` is the identity on present strings. -/
theorem jsOr_some_empty (u : String) : jsOr (some u) "" = u := by
  by_cases h : u = "" <;> simp [jsOr, h]

/-- The classified category of each result, as the aggregator and panel
theorems use it. -/
def resultCat (r : AnalysisResult) : RiskCategory :=
  classifyCategory (resultLabel r)

/-- Category test used by the aggregator theorem. -/
def isAdjustCat (c : RiskCategory) : Bool := c = .adjust

/-- Category test used by the aggregator theorem. -/
def isSafeCat (c : RiskCategory) : Bool := c = .safe

/-- Each counts-reduce step increments exactly the bucket of the result
category, and leaves the accumulator alone on Unknown. -/
theorem countsStep_cases (acc : Counts) (r : AnalysisResult) :
    countsStep acc r =
      if isCriticalCat (resultCat r) then { acc with critical := acc.critical + 1 }
      else if isAdjustCat (resultCat r) then { acc with warn := acc.warn + 1 }
      else if isSafeCat (resultCat r) then { acc with safe := acc.safe + 1 }
      else acc := by
  simp only [countsStep, resultCat, classifyCategory, isCriticalCat, isAdjustCat, isSafeCat]
  by_cases h1 : jsToLower (jsOr (resultLabel r) "") = "toxic"
  · simp [h1]
  · by_cases h2 : jsToLower (jsOr (resultLabel r) "") = "ineffective"
    · simp [h1, h2]
    · by_cases h3 : strIncludes (jsToLower (jsOr (resultLabel r) "")) "adjust" = true
      · simp [h1, h2, h3]
      · rw [Bool.not_eq_true] at h3
        simp only [h3]
        by_cases h4 : jsToLower (jsOr (resultLabel r) "") = "safe"
        · simp [h1, h2, h4]
        · simp [h1, h2, h4]

/-- Folding the counts reduce from any accumulator adds the three filter
lengths. -/
theorem counts_foldl (rs : List AnalysisResult) : ∀ acc : Counts,
    rs.foldl countsStep acc =
      { critical := acc.critical + (rs.filter fun r => isCriticalCat (resultCat r)).length
        warn := acc.warn + (rs.filter fun r => isAdjustCat (resultCat r)).length
        safe := acc.safe + (rs.filter fun r => isSafeCat (resultCat r)).length } := by
  induction rs with
  | nil => intro acc; simp
  | cons r rest ih =>
    intro acc
    rw [List.foldl_cons, ih, countsStep_cases]
    cases h : resultCat r <;>
      simp [List.filter_cons, h, isCriticalCat, isAdjustCat, isSafeCat] <;>
      omega

/-- The three bucket sizes sum to the number of non-Unknown results. -/
theorem counts_partition (rs : List AnalysisResult) :
    (rs.filter fun r => isCriticalCat (resultCat r)).length
      + (rs.filter fun r => isAdjustCat (resultCat r)).length
      + (rs.filter fun r => isSafeCat (resultCat r)).length
      = (rs.filter fun r => !(resultCat r = RiskCategory.unknown : Bool)).length := by
  induction rs with
  | nil => simp
  | cons r rest ih =>
    cases h : resultCat r <;>
      simp_all [List.filter_cons, isCriticalCat, isAdjustCat, isSafeCat] <;>
      omega

/-! ## Claims -/

/-- Claim C2 (confirmed).  Risk classification is a pure total function on
risk-label strings, null and empty included: every label gets the complete,
fixed metadata of its category (so no partial category is ever produced);
classification only depends on the lowercased label, hence is
case-insensitive; and the ordered rules give classify("TOXIC") =
classify("toxic") = Critical-Toxic, classify(null) = classify("") = Unknown,
and classify("please adjust dose") = Adjust by substring match. -/
theorem C2_risk_classifier_total :
    (∀ label, riskMeta label = metaOfCategory (classifyCategory label)) ∧
    (∀ s t : String, jsToLower s = jsToLower t →
      classifyCategory (some s) = classifyCategory (some t)) ∧
    classifyCategory (some "TOXIC") = .criticalToxic ∧
    classifyCategory (some "toxic") = .criticalToxic ∧
    classifyCategory none = .unknown ∧
    classifyCategory (some "") = .unknown ∧
    classifyCategory (some "please adjust dose") = .adjust := by
  refine ⟨?_, ?_, by decide, by decide, by decide, by decide, by decide⟩
  · intro label
    simp only [riskMeta, classifyCategory]
    by_cases h1 : jsToLower (jsOr label "") = "toxic"
    · simp [h1, metaOfCategory]
    · by_cases h2 : jsToLower (jsOr label "") = "ineffective"
      · simp [h1, h2, metaOfCategory]
      · by_cases h3 : strIncludes (jsToLower (jsOr label "")) "adjust" = true
        · simp [h1, h2, h3, metaOfCategory]
        · rw [Bool.not_eq_true] at h3
          simp only [h3]
          by_cases h4 : jsToLower (jsOr label "") = "safe"
          · simp [h1, h2, h4, metaOfCategory]
          · simp [h1, h2, h4, metaOfCategory]
  · intro s t h
    simp only [classifyCategory, jsOr_some_empty, h]

/-- Witness for C2: case-insensitivity applied to the TOXIC instance. -/
theorem C2_risk_classifier_total_witness :
    classifyCategory (some "TOXIC") = classifyCategory (some "toxic") :=
  C2_risk_classifier_total.2.1 "TOXIC" "toxic" (by decide)

/-- Claim C3 (confirmed).  The aggregator counts are exactly the sizes of
the classified buckets: critical counts the Critical-Toxic and
Critical-Ineffective results, warn the Adjust results, safe the Safe
results, and Unknown results land in no bucket (the three counts sum to the
number of non-Unknown results).  On labels [Toxic, Safe, "Adjust Dose",
null, Ineffective] the counts are {critical := 2, warn := 1, safe := 1}. -/
theorem C3_aggregator_counts :
    (∀ results : List AnalysisResult,
      counts results =
        { critical := (results.filter fun r => isCriticalCat (resultCat r)).length
          warn := (results.filter fun r => isAdjustCat (resultCat r)).length
          safe := (results.filter fun r => isSafeCat (resultCat r)).length }) ∧
    (∀ results : List AnalysisResult,
      (counts results).critical + (counts results).warn + (counts results).safe =
        (results.filter fun r => !(resultCat r = .unknown : Bool)).length) ∧
    counts
      [ { risk_assessment := some { risk_label := some "Toxic" } }
      , { risk_assessment := some { risk_label := some "Safe" } }
      , { risk_assessment := some { risk_label := some "Adjust Dose" } }
      , { risk_assessment := some { risk_label := some "Unknown" } }
      , { risk_assessment := some { risk_label := some "Ineffective" } } ] =
      { critical := 2, warn := 1, safe := 1 } := by
  refine ⟨?_, ?_, by decide⟩
  · intro results
    unfold counts
    exact (counts_foldl results ⟨0, 0, 0⟩).trans (by simp)
  · intro results
    have h := counts_foldl results ⟨0, 0, 0⟩
    unfold counts
    rw [h]
    simpa using counts_partition results

/-- Claim C1 counterexample.  The claim asserts that a result classified
Unknown (no matching rule) renders the no-result placeholder; the code
initialises the modifier to 1.0 and never leaves it undefined, so dose 100
under an Unknown label renders the value 100.0, not the placeholder. -/
theorem C1_counterexample :
    calculatedDose "100" (some "Unknown") = .value 100 ∧
    (DoseDisplay.value 100 ≠ .placeholder) ∧
    classifyCategory (some "Unknown") = .unknown := by
  decide

/-- Claim C1 as amended (proved).  The dose cell parses the input as
floating point and renders standardDose times the modifier rounded to one
decimal, where the modifier is 0.0 for Critical-Toxic and
Critical-Ineffective, 0.5 for Adjust, and 1.0 for both Safe and Unknown (the
initial 1.0 is never replaced on an unmatched label); an empty input renders
the placeholder whatever the label; a non-empty non-numeric input renders
the literal NaN text, not the placeholder; and a computed zero is rendered
as the value 0.0, distinguished from the placeholder.  In particular
calc(100, Adjust) = 50.0, calc(100, Critical-Toxic) = 0.0, calc("", any) =
placeholder, and calc(100, Unknown) = 100.0. -/
theorem C1_dose_calculator_amended :
    (∀ label, calculatedDose "" label = .placeholder) ∧
    (∀ label, doseModifier label =
      match classifyCategory label with
      | .criticalToxic => 0
      | .criticalIneffective => 0
      | .adjust => mkRat 1 2
      | .safe => 1
      | .unknown => 1) ∧
    calculatedDose "100" (some "Adjust Dose") = .value 50 ∧
    calculatedDose "100" (some "Toxic") = .value 0 ∧
    calculatedDose "100" (some "Ineffective") = .value 0 ∧
    (DoseDisplay.value 0 ≠ .placeholder) ∧
    calculatedDose "100" (some "Safe") = .value 100 ∧
    calculatedDose "100" (some "Unknown") = .value 100 ∧
    calculatedDose "100" none = .value 100 ∧
    calculatedDose "abc" (some "Safe") = .nanText ∧
    (DoseDisplay.nanText ≠ .placeholder) := by
  refine ⟨by intro label; rfl, ?_, by decide, by decide, by decide, by decide,
    by decide, by decide, by decide, by decide, by decide⟩
  intro label
  simp only [doseModifier, classifyCategory]
  by_cases h1 : jsToLower (jsOr label "") = "toxic"
  · simp [h1]
  · by_cases h2 : jsToLower (jsOr label "") = "ineffective"
    · simp [h1, h2]
    · by_cases h3 : strIncludes (jsToLower (jsOr label "")) "adjust" = true
      · simp [h1, h2, h3]
      · rw [Bool.not_eq_true] at h3
        simp only [h3]
        by_cases h4 : jsToLower (jsOr label "") = "safe"
        · simp [h1, h2, h4]
        · simp [h1, h2, h4]

/-! ## Gene panel lemmas -/

/-- Boolean membership in a key list, matching the shape of
`List.lookup`. -/
def keyMem (a : String) : List String → Bool
  | [] => false
  | b :: l => a == b || keyMem a l

/-- First-occurrence deduplication that drops an initial exclusion set, the
shape the loop invariant takes. -/
def dedupExcl (ex : List String) : List String → List String
  | [] => []
  | a :: l => if keyMem a ex then dedupExcl ex l else a :: dedupExcl (a :: ex) l

theorem optOr_some (x : α) (b : Option α) : optOr (some x) b = some x := rfl

theorem optOr_none (b : Option α) : optOr none b = b := rfl

theorem optOr_assoc (a b c : Option α) :
    optOr (optOr a b) c = optOr a (optOr b c) := by
  cases a <;> rfl

/-- `lookup` over an append splits with `optOr`. -/
theorem lookup_append (g : String) (l₁ l₂ : List (String × GenePanelEntry)) :
    List.lookup g (l₁ ++ l₂) = optOr (List.lookup g l₁) (List.lookup g l₂) := by
  induction l₁ with
  | nil => rfl
  | cons p t ih =>
    obtain ⟨k, e⟩ := p
    by_cases h : g = k
    · simp [List.lookup, h, optOr]
    · have hb : (g == k) = false := by simp [h]
      simp [List.lookup, hb, ih]

/-- A lookup succeeds exactly on the stored keys. -/
theorem lookup_isSome_eq_keyMem (g : String) (l : List (String × GenePanelEntry)) :
    (List.lookup g l).isSome = keyMem g (l.map Prod.fst) := by
  induction l with
  | nil => rfl
  | cons p t ih =>
    obtain ⟨k, e⟩ := p
    by_cases h : g = k
    · simp [List.lookup, keyMem, h]
    · have hb : (g == k) = false := by simp [h]
      simp [List.lookup, keyMem, hb, ih]

/-- `dedupExcl` only depends on the membership of the exclusion set. -/
theorem dedupExcl_congr : ∀ (l ex₁ ex₂ : List String),
    (∀ a, keyMem a ex₁ = keyMem a ex₂) → dedupExcl ex₁ l = dedupExcl ex₂ l
  | [], _, _, _ => rfl
  | a :: l, ex₁, ex₂, h => by
    have h0 : dedupExcl ex₁ l = dedupExcl ex₂ l := dedupExcl_congr l ex₁ ex₂ h
    have h1 : dedupExcl (a :: ex₁) l = dedupExcl (a :: ex₂) l := by
      refine dedupExcl_congr l (a :: ex₁) (a :: ex₂) ?_
      intro b
      simp [keyMem, h b]
    simp only [dedupExcl, h a, h0, h1]

/-- Snoc on the exclusion set is the same as cons. -/
theorem keyMem_snoc (ex : List String) (g a : String) :
    keyMem a (ex ++ [g]) = keyMem a (g :: ex) := by
  induction ex with
  | nil => rfl
  | cons b t ih =>
    show (a == b || keyMem a (t ++ [g])) = (a == g || (a == b || keyMem a t))
    rw [ih]
    show (a == b || (a == g || keyMem a t)) = (a == g || (a == b || keyMem a t))
    cases a == b <;> cases a == g <;> rfl

/-- Keys of the loop output: the keys already seen, then the first
occurrences of the remaining gene keys. -/
theorem buildLoop_keys : ∀ (rs : List AnalysisResult) (seen : List (String × GenePanelEntry)),
    (buildLoop rs seen).map Prod.fst =
      seen.map Prod.fst ++ dedupExcl (seen.map Prod.fst) (rs.filterMap geneKey)
  | [], seen => by simp [buildLoop, dedupExcl]
  | r :: rest, seen => by
    cases hk : geneKey r with
    | none => simp [buildLoop, hk, List.filterMap_cons, buildLoop_keys rest seen]
    | some g =>
      simp only [buildLoop, hk, List.filterMap_cons]
      by_cases hs : (List.lookup g seen).isSome = true
      · have hm : keyMem g (seen.map Prod.fst) = true := by
          rw [← lookup_isSome_eq_keyMem]
          exact hs
        rw [if_pos hs, buildLoop_keys rest seen]
        simp [dedupExcl, hm]
      · have hm : keyMem g (seen.map Prod.fst) = false := by
          have h0 := hs
          rw [Bool.not_eq_true, lookup_isSome_eq_keyMem] at h0
          exact h0
        rw [if_neg hs, buildLoop_keys rest (seen ++ [(g, mkPanelEntry g (pgxOf r))])]
        simp only [List.map_append, List.map_cons, List.map_nil]
        rw [dedupExcl_congr (rest.filterMap geneKey) _ _ (keyMem_snoc (seen.map Prod.fst) g)]
        simp [dedupExcl, hm]

/-- Looking a gene up in the loop output: the seen entry if there is one,
else the entry built from the first remaining result carrying that gene. -/
theorem buildLoop_lookup : ∀ (rs : List AnalysisResult) (seen : List (String × GenePanelEntry))
    (g : String),
    List.lookup g (buildLoop rs seen) =
      optOr (List.lookup g seen)
        ((rs.find? fun r => geneKey r == some g).map fun r => mkPanelEntry g (pgxOf r))
  | [], seen, g => by cases h : List.lookup g seen <;> simp [buildLoop, optOr, h]
  | r :: rest, seen, g => by
    cases hk : geneKey r with
    | none =>
      simp only [buildLoop, hk]
      rw [List.find?_cons_of_neg]
      · exact buildLoop_lookup rest seen g
      · simp [hk]
    | some g0 =>
      simp only [buildLoop, hk]
      by_cases hs : (List.lookup g0 seen).isSome = true
      · rw [if_pos hs, buildLoop_lookup rest seen g]
        by_cases hg : g0 = g
        · subst hg
          obtain ⟨e, he⟩ := Option.isSome_iff_exists.mp hs
          rw [List.find?_cons_of_pos]
          · rw [he]
            rfl
          · simp [hk]
        · rw [List.find?_cons_of_neg]
          simp [hk, hg]
      · rw [if_neg hs]
        rw [Option.not_isSome_iff_eq_none] at hs
        rw [buildLoop_lookup rest (seen ++ [(g0, mkPanelEntry g0 (pgxOf r))]) g,
          lookup_append]
        by_cases hg : g0 = g
        · subst hg
          rw [List.find?_cons_of_pos]
          · rw [hs]
            simp [optOr, List.lookup]
          · simp [hk]
        · rw [List.find?_cons_of_neg]
          · have hb : (g == g0) = false := by simp [Ne.symm hg]
            simp only [List.lookup, hb]
            rw [optOr_assoc]
            rfl
          · simp [hk, hg]

/-- Every pair the loop stores has its key as the gene of its entry. -/
theorem buildLoop_fst : ∀ (rs : List AnalysisResult) (seen : List (String × GenePanelEntry)),
    (∀ p ∈ seen, (p.2).gene = p.1) → ∀ p ∈ buildLoop rs seen, (p.2).gene = p.1
  | [], seen, h => h
  | r :: rest, seen, h => by
    cases hk : geneKey r with
    | none => simpa [buildLoop, hk] using buildLoop_fst rest seen h
    | some g =>
      simp only [buildLoop, hk]
      by_cases hs : (List.lookup g seen).isSome
      · simpa [hs] using buildLoop_fst rest seen h
      · rw [Bool.not_eq_true] at hs
        simp only [hs, Bool.false_eq_true, if_false]
        refine buildLoop_fst rest _ ?_
        intro p hp
        rcases List.mem_append.mp hp with hp | hp
        · exact h p hp
        · rcases List.mem_singleton.mp hp with rfl
          rfl

/-- Finding an entry by gene in the value list is looking its key up,
whenever keys and genes agree. -/
theorem find_map_snd (l : List (String × GenePanelEntry))
    (hg : ∀ p ∈ l, (p.2).gene = p.1) (g : String) :
    (l.map Prod.snd).find? (fun e => e.gene == g) = List.lookup g l := by
  induction l with
  | nil => rfl
  | cons p t ih =>
    obtain ⟨k, e⟩ := p
    have he : e.gene = k := hg (k, e) (List.mem_cons_self _ _)
    have ht : ∀ q ∈ t, (q.2).gene = q.1 := fun q hq => hg q (List.mem_cons_of_mem _ hq)
    by_cases h : k = g
    · simp [List.find?_cons, List.lookup, he, h]
    · have hb1 : (e.gene == g) = false := by simp [he, h]
      have hb2 : (g == k) = false := by simp [Ne.symm h]
      simp [List.find?_cons, List.lookup, hb1, hb2, ih ht]

/-- Genes of the values are the keys, whenever keys and genes agree. -/
theorem map_gene_eq_fst (l : List (String × GenePanelEntry))
    (hg : ∀ p ∈ l, (p.2).gene = p.1) :
    (l.map Prod.snd).map GenePanelEntry.gene = l.map Prod.fst := by
  induction l with
  | nil => rfl
  | cons p t ih =>
    simp only [List.map_cons, List.cons.injEq]
    exact ⟨hg p (List.mem_cons_self _ _),
      ih fun q hq => hg q (List.mem_cons_of_mem _ hq)⟩

/-- `dedupExcl` with an exclusion set filters the plain deduplication. -/
theorem dedupExcl_eq_filter : ∀ (l ex : List String),
    dedupExcl ex l = (dedupFirst l).filter (fun b => !keyMem b ex)
  | [], _ => rfl
  | a :: l, ex => by
    by_cases hm : keyMem a ex = true
    · rw [show dedupExcl ex (a :: l) = dedupExcl ex l from by simp [dedupExcl, hm],
        dedupExcl_eq_filter l ex]
      simp only [dedupFirst, List.filter_cons, hm, Bool.not_true, Bool.false_eq_true,
        if_false, List.filter_filter]
      refine (List.filter_congr ?_).symm
      intro b _
      by_cases hb : b = a
      · subst hb
        simp [hm]
      · simp [hb]
    · rw [show dedupExcl ex (a :: l) = a :: dedupExcl (a :: ex) l from by simp [dedupExcl, hm],
        dedupExcl_eq_filter l (a :: ex)]
      have hm0 : (!keyMem a ex) = true := by simp [hm]
      simp only [dedupFirst, List.filter_cons, hm0, if_true, List.filter_filter]
      refine congrArg (List.cons a) (List.filter_congr ?_)
      intro b _
      by_cases hb : b = a
      · subst hb
        simp [keyMem]
      · have hba : (b == a) = false := by simp [hb]
        simp [keyMem, hba, hb, Bool.and_comm]

/-- `keyMem` of the empty list is false, so the filter is trivial. -/
theorem dedupExcl_nil_eq (l : List String) : dedupExcl [] l = dedupFirst l := by
  rw [dedupExcl_eq_filter]
  simp [keyMem]

/-- The plain first-occurrence deduplication has no duplicates. -/
theorem dedupFirst_nodup : ∀ l : List String, (dedupFirst l).Nodup
  | [] => List.nodup_nil
  | a :: l => by
    simp only [dedupFirst]
    refine List.nodup_cons.mpr ⟨?_, (dedupFirst_nodup l).filter _⟩
    intro hmem
    have := (List.mem_filter.mp hmem).2
    simp at this

/-- Profile of the first CYP2D6 result in the worked example. -/
def exPgxD6first : PharmacogenomicProfile :=
  { primary_gene := some "CYP2D6"
    diplotype := some "*1/*4"
    phenotype := some "IM"
    detected_variants := some [{ rsid := some "rs3892097" }] }

/-- Profile of the CYP2C19 result in the worked example. -/
def exPgxC19 : PharmacogenomicProfile :=
  { primary_gene := some "CYP2C19"
    diplotype := some "*2/*2"
    phenotype := some "PM"
    detected_variants := some [{ rsid := some "rs4244285" }] }

/-- Profile of the second CYP2D6 result in the worked example, carrying
different variants than the first. -/
def exPgxD6second : PharmacogenomicProfile :=
  { primary_gene := some "CYP2D6"
    diplotype := some "*1/*1"
    phenotype := some "NM"
    detected_variants := some [{ rsid := some "rs1065852" }] }

/-- Result list with genes [CYP2D6, CYP2C19, CYP2D6]. -/
def exDupResults : List AnalysisResult :=
  [ { drug := some "CODEINE", pharmacogenomic_profile := some exPgxD6first }
  , { drug := some "CLOPIDOGREL", pharmacogenomic_profile := some exPgxC19 }
  , { drug := some "PAROXETINE", pharmacogenomic_profile := some exPgxD6second } ]

/-- Claim C4 (confirmed).  The reconstructor emits exactly one entry per
distinct primary gene, in first-occurrence order (the gene sequence of the
panel is the first-occurrence deduplication of the gene sequence of the
results, hence without duplicates); looking any gene up in the panel finds
the entry built from the first result carrying that gene, so later results
for the same gene are ignored; results without a primary gene (absent or
empty) contribute nothing; and on genes [CYP2D6, CYP2C19, CYP2D6] the panel
has exactly the two entries [CYP2D6, CYP2C19] with the CYP2D6 entry carrying
the variants of the first result. -/
theorem C4_gene_panel_reconstruction :
    (∀ res, (_buildGenePanelFallback res).map GenePanelEntry.gene =
      dedupFirst ((normalizeResults res).filterMap geneKey)) ∧
    (∀ res, ((_buildGenePanelFallback res).map GenePanelEntry.gene).Nodup) ∧
    (∀ res g, (_buildGenePanelFallback res).find? (fun e => e.gene == g) =
      ((normalizeResults res).find? fun r => geneKey r == some g).map
        fun r => mkPanelEntry g (pgxOf r)) ∧
    _buildGenePanelFallback (.many exDupResults) =
      [mkPanelEntry "CYP2D6" exPgxD6first, mkPanelEntry "CYP2C19" exPgxC19] ∧
    ((_buildGenePanelFallback (.many exDupResults)).map GenePanelEntry.gene =
      ["CYP2D6", "CYP2C19"]) ∧
    ((_buildGenePanelFallback (.many exDupResults)).head?.map GenePanelEntry.variants =
      some [{ rsid := some "rs3892097" }]) ∧
    ([({ rsid := some "rs3892097" } : Variant)] ≠ [({ rsid := some "rs1065852" } : Variant)]) := by
  have hfst : ∀ res, ∀ p ∈ buildLoop (normalizeResults res) [], (p.2).gene = p.1 :=
    fun res => buildLoop_fst (normalizeResults res) [] (by intro p hp; cases hp)
  have hgenes : ∀ res, (_buildGenePanelFallback res).map GenePanelEntry.gene =
      dedupFirst ((normalizeResults res).filterMap geneKey) := by
    intro res
    unfold _buildGenePanelFallback
    rw [map_gene_eq_fst _ (hfst res), buildLoop_keys (normalizeResults res) []]
    simp [dedupExcl_nil_eq]
  refine ⟨hgenes, ?_, ?_, by decide, by decide, by decide, by decide⟩
  · intro res
    rw [hgenes res]
    exact dedupFirst_nodup _
  · intro res g
    unfold _buildGenePanelFallback
    rw [find_map_snd _ (hfst res) g, buildLoop_lookup (normalizeResults res) [] g]
    rfl

/-! ## Orchestration lemmas -/

theorem orchRun_cons (s : OrchState) (e : OrchEvent) (evs : List OrchEvent) :
    orchRun s (e :: evs) = orchRun (orchStep s e) evs := rfl

/-- With the ticker active and the view mounted, `n` interval callbacks
drive both the closure step and the displayed step to
`min (start + n) 6`, and keep the ticker alive and the view mounted. -/
theorem tick_run : ∀ (n : Nat) (s : OrchState),
    s.tickerActive = true → s.uploadMounted = true → s.pipelineStep = s.tickerStep →
    s.tickerStep ≤ 6 →
    (orchRun s (List.replicate n OrchEvent.tick)).pipelineStep = min (s.tickerStep + n) 6 ∧
    (orchRun s (List.replicate n OrchEvent.tick)).tickerStep = min (s.tickerStep + n) 6 ∧
    (orchRun s (List.replicate n OrchEvent.tick)).tickerActive = true ∧
    (orchRun s (List.replicate n OrchEvent.tick)).uploadMounted = true
  | 0, s, ha, hm, hp, h6 => by
    simp only [List.replicate, orchRun, List.foldl_nil]
    refine ⟨?_, ?_, ha, hm⟩ <;> omega
  | n + 1, s, ha, hm, hp, h6 => by
    have hstep : orchStep s .tick =
        { s with tickerStep := min (s.tickerStep + 1) 6,
                 pipelineStep := min (s.tickerStep + 1) 6 } := by
      simp [orchStep, ha, hm]
    have ih := tick_run n (orchStep s .tick) (by rw [hstep]; exact ha) (by rw [hstep]; exact hm)
      (by rw [hstep]) (by rw [hstep]; exact min_le_right _ _)
    rw [List.replicate_succ, orchRun_cons]
    refine ⟨?_, ?_, ih.2.2.1, ih.2.2.2⟩
    · rw [ih.1]
      simp only [hstep]
      omega
    · rw [ih.2.1]
      simp only [hstep]
      omega

/-- Once the interval is cleared, further scheduled callbacks are inert. -/
theorem tick_inactive : ∀ (n : Nat) (s : OrchState), s.tickerActive = false →
    orchRun s (List.replicate n OrchEvent.tick) = s
  | 0, _, _ => rfl
  | n + 1, s, h => by
    rw [List.replicate_succ, orchRun_cons, show orchStep s .tick = s from by simp [orchStep, h]]
    exact tick_inactive n s h

/-- `x || fallback` is never empty when the fallback is not. -/
theorem jsOr_ne_empty (o : Option String) (d : String) (hd : d ≠ "") : jsOr o d ≠ "" := by
  cases o with
  | none => exact hd
  | some x =>
    by_cases hx : x = "" <;> simp [jsOr, hx, hd]

/-- The analyze failure message always carries text. -/
theorem analyzeErrMsg_ne_empty (e de : Option String) : analyzeErrMsg e de ≠ "" :=
  jsOr_ne_empty _ _ (jsOr_ne_empty _ _ (by decide))

/-- The fetch failure message always carries text. -/
theorem fetchErrMsg_ne_empty (e de : Option String) : fetchErrMsg e de ≠ "" :=
  jsOr_ne_empty _ _ (jsOr_ne_empty _ _ (by decide))

/-- A concrete upload-view state ready to submit: a file chosen and one
drug selected. -/
def demoUploadState : OrchState :=
  { view := .upload
    uploadMounted := true
    file := some "patient.vcf"
    patientCode := "PATIENT_001"
    selectedDrugs := ["CODEINE"]
    selectedMeds := []
    loading := false
    pipelineStep := 0
    tickerStep := 0
    tickerActive := false
    toast := none
    appResults := []
    appGenePanel := []
    appUploadData := none }

/-- A concrete successful analyze response. -/
def demoResponse : AnalyzeResponseData :=
  { results := .many [{ drug := some "CODEINE" }]
    patient_code := some "PATIENT_001"
    patient_id := some "7b1c2a9e"
    total_variants_parsed := some 42
    gene_panel := none }

/-! ## Remaining claims -/

/-- Claim C5 (confirmed).  On the fetch-by-patient path a server-supplied
gene panel — which is necessarily the case when it is non-empty — is used as
is and the local reconstructor is never invoked on it (the choice does not
even read the result list then); an absent `gene_panel` invokes the local
reconstruction of the panel from the fetched results; and the success path
of the fetch handler stores exactly this choice. -/
theorem C5_fetch_gene_panel :
    (∀ (gp : List GenePanelEntry) (res : ResultsField), genePanelForFetch (some gp) res = gp) ∧
    (∀ res : ResultsField, genePanelForFetch none res = _buildGenePanelFallback res) ∧
    (∀ (s : ResultsViewState) (data : AnalyzeResponseData),
      jsTrim s.fetchPatientId ≠ "" →
      (handleFetchByPatient s (.success data)).genePanel =
        genePanelForFetch data.gene_panel data.results) := by
  refine ⟨fun gp res => rfl, fun res => rfl, ?_⟩
  intro s data h
  simp [handleFetchByPatient, h]

/-- Witness for C5: the stored panel of a concrete successful fetch without
a server panel. -/
theorem C5_fetch_gene_panel_witness :
    (handleFetchByPatient ⟨[], [], none, "PATIENT_001", false, none⟩
        (.success { results := .many exDupResults })).genePanel =
      genePanelForFetch none (.many exDupResults) :=
  C5_fetch_gene_panel.2.2 ⟨[], [], none, "PATIENT_001", false, none⟩
    { results := .many exDupResults } (by decide)

/-- Claim C6 (confirmed).  From submission until the real response arrives
the simulated stage is `min (1 + n) 6` after `n` ticks, hence never exceeds
6 and is frozen at 6 from the fifth tick on; the response cancels the ticker
and force-sets the stage to 7; and every tick scheduled after cancellation
leaves the state — the stage included — exactly as it was, so the stage
makes a single transition to 7. -/
theorem C6_pipeline_progress (v : View) (f pc d : String) (ds ms : List String) (ld : Bool)
    (ps ts : Nat) (ta : Bool) (t0 : Option String) (ar : List AnalysisResult)
    (gp : List GenePanelEntry) (ud : Option UploadMeta) (n m k : Nat)
    (data : AnalyzeResponseData) :
    let s0 : OrchState := ⟨v, true, some f, pc, d :: ds, ms, ld, ps, ts, ta, t0, ar, gp, ud⟩
    let s1 := orchRun s0 (OrchEvent.submit :: List.replicate n .tick)
    let s2 := orchStep s1 (.respondSuccess data)
    s1.pipelineStep = min (1 + n) 6 ∧
    s1.pipelineStep ≤ 6 ∧
    (orchRun s0 (OrchEvent.submit :: List.replicate (5 + k) .tick)).pipelineStep = 6 ∧
    s2.pipelineStep = 7 ∧
    s2.tickerActive = false ∧
    s2.view = .results ∧
    orchRun s2 (List.replicate m .tick) = s2 := by
  intro s0 s1 s2
  have hsub : orchStep s0 .submit =
      { s0 with loading := true, pipelineStep := 1, tickerStep := 1, tickerActive := true } := by
    simp [orchStep, handleSubmitAction]
  have hticks := fun nn => tick_run nn (orchStep s0 .submit)
    (by simp [hsub]) (by simp [hsub]) (by simp [hsub]) (by simp [hsub])
  have h1p : s1.pipelineStep = min (1 + n) 6 := by
    show (orchRun (orchStep s0 .submit) (List.replicate n .tick)).pipelineStep = min (1 + n) 6
    rw [(hticks n).1]
    simp [hsub, Nat.add_comm]
  have h1m : s1.uploadMounted = true := by
    show (orchRun (orchStep s0 .submit) (List.replicate n .tick)).uploadMounted = true
    exact (hticks n).2.2.2
  have h2a : s2.pipelineStep = 7 := by
    show (orchStep s1 (.respondSuccess data)).pipelineStep = 7
    simp [orchStep, h1m]
  have h2b : s2.tickerActive = false := rfl
  have h2c : s2.view = .results := rfl
  refine ⟨h1p, by omega, ?_, h2a, h2b, h2c, ?_⟩
  · show (orchRun (orchStep s0 .submit) (List.replicate (5 + k) .tick)).pipelineStep = 6
    rw [(hticks (5 + k)).1]
    simp [hsub]
    omega
  · exact tick_inactive m s2 h2b

/-- Claim C7 counterexample.  The claim asserts that navigating away from
the upload view during states 1 through 6 stops the progress ticker and
discards the in-flight response.  The Upload component installs no unmount
cleanup, so in the embedded machine the ticker is still active after
navigating away, the next scheduled callback still advances the closure
step, and the response, when it arrives, still calls `onResults` and moves
the application to the results view. -/
theorem C7_counterexample :
    (orchRun demoUploadState
        [OrchEvent.submit, OrchEvent.navigateAway .home]).tickerActive = true ∧
    (orchRun demoUploadState
        [OrchEvent.submit, OrchEvent.navigateAway .home, OrchEvent.tick]).tickerStep = 2 ∧
    (orchRun demoUploadState
        [OrchEvent.submit, OrchEvent.navigateAway .home, OrchEvent.tick,
          OrchEvent.respondSuccess demoResponse]).view = .results ∧
    (orchRun demoUploadState
        [OrchEvent.submit, OrchEvent.navigateAway .home, OrchEvent.tick,
          OrchEvent.respondSuccess demoResponse]).appResults =
      normalizeResults demoResponse.results := by
  decide

/-- Claim C7 as amended (proved).  Navigating away from the upload view
during states 1 through 6 does not stop the ticker (the component installs
no cleanup): further callbacks keep firing, though they no longer change the
displayed stage of the unmounted view; and the in-flight response, when it
arrives, is not discarded — it cancels the ticker, skips the stage update of
the unmounted view, and still calls `onResults`, transitioning the
application to the results view with the fetched data. -/
theorem C7_unmount_amended (f : Option String) (pc : String) (sd sm : List String)
    (ps ts : Nat) (t0 : Option String) (ar : List AnalysisResult) (gp : List GenePanelEntry)
    (ud : Option UploadMeta) (w : View) (data : AnalyzeResponseData) :
    let s : OrchState := ⟨.upload, true, f, pc, sd, sm, true, ps, ts, true, t0, ar, gp, ud⟩
    let s1 := orchStep s (.navigateAway w)
    s1.tickerActive = true ∧
    s1.uploadMounted = false ∧
    s1.view = w ∧
    (orchStep s1 .tick).tickerStep = min (s1.tickerStep + 1) 6 ∧
    (orchStep s1 .tick).pipelineStep = s1.pipelineStep ∧
    (orchStep s1 (.respondSuccess data)).view = .results ∧
    (orchStep s1 (.respondSuccess data)).appResults = normalizeResults data.results ∧
    (orchStep s1 (.respondSuccess data)).pipelineStep = s1.pipelineStep ∧
    (orchStep s1 (.respondSuccess data)).tickerActive = false := by
  refine ⟨rfl, rfl, rfl, by simp [orchStep], by simp [orchStep], rfl, rfl, by simp [orchStep], rfl⟩

/-- Claim C8 (confirmed).  Submission with no file is blocked with the
message naming the missing file; submission with a file but an empty drug
selection is blocked with the message naming the missing selection (the two
messages are distinct); no blocked outcome carries a request; and with a
file and at least one drug the single combined upload-and-analyze request is
issued with the form the client builds. -/
theorem C8_submission_guards :
    (∀ (drugs : List String) (pc : String) (meds : List String),
      handleSubmitAction none drugs pc meds = .blocked "Please select a VCF file.") ∧
    (∀ (f pc : String) (meds : List String),
      handleSubmitAction (some f) [] pc meds = .blocked "Select at least one drug to analyze.") ∧
    (∀ (f pc d : String) (ds meds : List String),
      handleSubmitAction (some f) (d :: ds) pc meds = .submitted
        { file := f
          patient_code := jsOr (some pc) "PATIENT_001"
          drugs := String.intercalate "," (d :: ds)
          concurrent_medications := String.intercalate "," meds }) ∧
    ("Please select a VCF file." ≠ "Select at least one drug to analyze.") := by
  exact ⟨fun _ _ _ => rfl, fun _ _ _ => rfl, fun _ _ _ _ _ => rfl, by decide⟩

/-- Claim C9 (confirmed).  On a mounted upload view, a failed analyze
settlement — a non-success payload or a transport error — cancels the
ticker, resets the pipeline stage to 0 and leaves loading, surfaces the
server error (or the nested detail error, or the generic fallback) as the
toast, and changes nothing else: the file, the drug and medication
selections and the patient code are exactly those of the pre-state. -/
theorem C9_failure_resets (v : View) (f : Option String) (pc : String) (sd sm : List String)
    (ld : Bool) (ps ts : Nat) (t0 : Option String) (ar : List AnalysisResult)
    (gp : List GenePanelEntry) (ud : Option UploadMeta) :
    let s : OrchState := ⟨v, true, f, pc, sd, sm, ld, ps, ts, true, t0, ar, gp, ud⟩
    (∀ e de, orchStep s (.respondFailure e de) =
      { s with tickerActive := false, pipelineStep := 0, loading := false,
               toast := some (analyzeErrMsg e de) }) ∧
    (∀ msg, msg ≠ "" → orchStep s (.respondTransport msg) =
      { s with tickerActive := false, pipelineStep := 0, loading := false,
               toast := some msg }) ∧
    analyzeErrMsg (some "CYP2D6 caller crashed") none = "CYP2D6 caller crashed" ∧
    analyzeErrMsg none (some "Invalid VCF header") = "Invalid VCF header" ∧
    analyzeErrMsg none none = "Analysis failed" := by
  refine ⟨?_, ?_, rfl, rfl, rfl⟩
  · intro e de
    simp [orchStep, if_neg (analyzeErrMsg_ne_empty e de)]
  · intro msg h
    simp [orchStep, h]

/-- Witness for C9: the transport branch at a concrete non-empty message. -/
theorem C9_failure_resets_witness :
    orchStep ⟨.upload, true, some "patient.vcf", "PATIENT_001", ["CODEINE"], [], true, 4, 4,
        true, none, [], [], none⟩ (.respondTransport "NetworkError") =
      ⟨.upload, true, some "patient.vcf", "PATIENT_001", ["CODEINE"], [], false, 0, 4,
        false, some "NetworkError", [], [], none⟩ :=
  (C9_failure_resets .upload (some "patient.vcf") "PATIENT_001" ["CODEINE"] [] true 4 4
    none [] [] none).2.1 "NetworkError" (by decide)

/-- Claim C10 (confirmed).  When the fetch-by-patient request fails — the
promise rejects with a non-success payload or a transport error — the
handler changes exactly two fields: the error message is set and the
fetching flag is cleared; the displayed result list, gene panel and upload
metadata are those of the pre-state. -/
theorem C10_fetch_failure_atomic (res : List AnalysisResult) (gp : List GenePanelEntry)
    (ud : Option UploadMeta) (pid : String) (ftch : Bool) (ferr : Option String)
    (h : jsTrim pid ≠ "") :
    let s : ResultsViewState := ⟨res, gp, ud, pid, ftch, ferr⟩
    (∀ e de, handleFetchByPatient s (.failure e de) =
      { s with fetchError := some (fetchErrMsg e de), fetching := false }) ∧
    (∀ msg, msg ≠ "" → handleFetchByPatient s (.transport msg) =
      { s with fetchError := some msg, fetching := false }) ∧
    (∀ e de, fetchErrMsg e de ≠ "") := by
  refine ⟨?_, ?_, fetchErrMsg_ne_empty⟩
  · intro e de
    simp [handleFetchByPatient, h, if_neg (fetchErrMsg_ne_empty e de)]
  · intro msg hm
    simp [handleFetchByPatient, h, hm]

/-- Witness for C10: a concrete failed fetch leaves the displayed data
untouched. -/
theorem C10_fetch_failure_atomic_witness :
    handleFetchByPatient ⟨exDupResults, [], none, "PATIENT_001", false, none⟩
        (.failure none none) =
      ⟨exDupResults, [], none, "PATIENT_001", false, some "Failed to fetch results"⟩ :=
  (C10_fetch_failure_atomic exDupResults [] none "PATIENT_001" false none
    (by decide)).1 none none

end PharmaGuard
